import Mathlib

/-!
Verification development for the password-manager repository.

The embedding follows the source files:
  * `src/lib/utils/crypto.ts` (also `src/unnamed/part_003`): key derivation,
    authenticated encryption and decryption wrappers over tweetnacl.
  * `src/lib/stores/vault.ts` and `src/unnamed/part_001`: the vault store
    (load, unlock, initialize, import, the derived decrypted view, migration).
  * `src/unnamed/part_004` (`local-storage.ts`): the local cache, one envelope
    under a fixed key, modelled as an `Option` field of the state.
  * `src/unnamed/part_007` (`Login.svelte`): the login component with its two
    persisted retry counters and the destructive wipe.

Modelling conventions:
  * Bytes are `List Nat`; `Uint8Array` values become `List Nat`.
  * The external cipher (tweetnacl `secretbox` / `secretbox.open`) is modelled
    as an ideal authenticated cipher: a ciphertext records the message, nonce
    and key it was produced with, and opening succeeds exactly for that nonce
    and key.  The length checks of the library (`bad key size`, `bad nonce
    size`, thrown as exceptions) are kept; exceptions are `Except.error`.
  * The external digest (tweetnacl `nacl.hash`, SHA-512) is modelled as a
    deterministic executable 64-byte digest stand-in; the claims only use
    determinism and the output length.
  * The base64 text codec of tweetnacl-util is an inverse pair used purely for
    transport; it is modelled as transparent (envelopes hold the decoded
    values directly).  UTF-8 encoding of plaintext is likewise transparent.
  * `JSON.stringify`/`JSON.parse` over the vault document are modelled by a
    `Plaintext` sum: `Plaintext.doc v` is the JSON text of a structurally
    valid document `v`, `Plaintext.raw s` is any other string; parsing a
    `raw` string fails (throws in the source, `none` here).
  * Randomness (`nacl.randomBytes`) is made explicit: fresh salts and nonces
    are parameters of the operations that draw them.
-/

namespace PasswordManager

/-- Byte strings (`Uint8Array` in the source) as lists of naturals. -/
abbrev Bytes := List Nat

/-- `nacl.secretbox.keyLength` (32). -/
def KEY_BYTES : Nat := 32

/-- `nacl.secretbox.nonceLength` (24). -/
def NONCE_BYTES : Nat := 24

/-- `SALT_BYTES` from `crypto.ts` (24). -/
def SALT_BYTES : Nat := 24

/-- Model of the external digest `nacl.hash` (SHA-512, from the tweetnacl
library, not part of this repository): a deterministic executable stand-in
producing 64 bytes.  The claims depend only on determinism and length. -/
def naclHash (bs : Bytes) : Bytes :=
  (List.range 64).map (fun i => bs.foldl (fun a b => (a * 31 + b + 1) % 256) i)

/-- Model of `util.decodeUTF8`: the byte sequence of a string.  Transparent
injective model (claims never inspect the byte values of text). -/
def decodeUTF8 (s : String) : Bytes :=
  s.toList.map Char.toNat

/-- `deriveKey` from `crypto.ts` lines 11-21 (`part_003` lines 29-46):
concatenate the UTF-8 password bytes with the salt, hash with `nacl.hash`
and truncate to the secretbox key length. -/
def deriveKey (password : String) (salt : Bytes) : Bytes :=
  (naclHash (decodeUTF8 password ++ salt)).take KEY_BYTES

/-- `verification` block of a vault document (`types/password.ts` lines 23-26). -/
structure Verification where
  marker : String
  version : String
deriving DecidableEq

/-- `PasswordEntry` (`types/password.ts` lines 2-11) together with the legacy
`category` field of `LegacyPasswordEntry` (lines 14-16), present on v1
documents and absent (`none`) on migrated ones. -/
structure PasswordEntry where
  id : String
  title : String
  username : String
  password : String
  url : String
  notes : String
  created : String
  modified : String
  category : Option String
deriving DecidableEq

/-- `PasswordVault` (`types/password.ts` lines 19-28).  Fields that the code
probes for absence (`vaultVersion ?? 1`, `globalNotes === undefined`,
optional `verification`) are `Option`s, so that documents decrypted from
arbitrary JSON can lack them. -/
structure PasswordVault where
  version : Option String
  vaultVersion : Option Int
  vault : List PasswordEntry
  globalNotes : Option String
  verification : Option Verification
deriving DecidableEq

/-- Decrypted plaintext: either the JSON serialization of a structurally
valid vault document, or any other string (which `JSON.parse` rejects for
the purposes of this model). -/
inductive Plaintext where
  | doc (v : PasswordVault)
  | raw (s : String)
deriving DecidableEq

/-- `JSON.parse` on a decrypted plaintext, as used by `unlockVault` and the
derived `vault` store: a structurally valid document parses to itself, any
other string throws (modelled as `none`). -/
def JSONparse (p : Plaintext) : Option PasswordVault :=
  match p with
  | .doc v => some v
  | .raw _ => none

/-- Ideal-cipher ciphertext: records the plaintext together with the nonce
and key of the encryption.  Models the authenticated-encryption contract of
tweetnacl `secretbox` (confidentiality plus integrity): opening succeeds
exactly under the producing nonce and key and yields exactly the original
message. -/
structure Ct where
  msg : Plaintext
  nonce : Bytes
  key : Bytes
deriving DecidableEq

/-- Model of `nacl.secretbox(msg, nonce, key)`.  The library's `checkLengths`
throws `bad key size` / `bad nonce size` for wrong-sized inputs; thrown
exceptions are `Except.error`. -/
def secretbox (msg : Plaintext) (nonce key : Bytes) : Except String Ct :=
  if key.length ≠ KEY_BYTES then .error ("bad key size")
  else if nonce.length ≠ NONCE_BYTES then .error ("bad nonce size")
  else .ok ⟨msg, nonce, key⟩

/-- Model of `nacl.secretbox.open(box, nonce, key)`: size checks throw, and
authenticated opening returns the message for the matching nonce and key and
`null` (`none`) otherwise. -/
def secretboxOpen (c : Ct) (nonce key : Bytes) : Except String (Option Plaintext) :=
  if key.length ≠ KEY_BYTES then .error ("bad key size")
  else if nonce.length ≠ NONCE_BYTES then .error ("bad nonce size")
  else if c.nonce = nonce ∧ c.key = key then .ok (some c.msg) else .ok none

/-- `encrypt` from `crypto.ts` lines 23-38 (`part_003` lines 49-71).  The
fresh random nonce drawn by `nacl.randomBytes(NONCE_BYTES)` is an explicit
parameter; base64 transport encoding is transparent.  Returns the
ciphertext/nonce pair, or the exception propagated from the cipher. -/
def encrypt (data : Plaintext) (key : Bytes) (nonce : Bytes) :
    Except String (Ct × Bytes) :=
  (secretbox data nonce key).map (fun c => (c, nonce))

/-- `decrypt` from `crypto.ts` lines 40-54 (`part_003` lines 74-95): open the
box, return `null` (`none`) on authentication failure; size-check exceptions
from the library propagate (the function has no try/catch). -/
def decrypt (c : Ct) (nonce : Bytes) (key : Bytes) :
    Except String (Option Plaintext) :=
  secretboxOpen c nonce key

/-- `CURRENT_VAULT_VERSION` from `part_001` line 20. -/
def CURRENT_VAULT_VERSION : Int := 2

/-- The entry rewrite of the v1 → v2 migration (`part_001` lines 35-40):
`delete entry.category`. -/
def stripCategory (e : PasswordEntry) : PasswordEntry :=
  { e with category := none }

/-- `migrateVault` from `part_001` lines 22-50: read `vaultVersion ?? 1`;
documents at or above the current version are returned unchanged; version-1
documents get `category` deleted from every entry and are stamped with the
current version; anything else falls through unchanged. -/
def migrateVault (v : PasswordVault) : PasswordVault :=
  let vaultVersion := v.vaultVersion.getD 1
  if vaultVersion ≥ CURRENT_VAULT_VERSION then v
  else if vaultVersion = 1 then
    { v with vault := v.vault.map stripCategory,
             vaultVersion := some CURRENT_VAULT_VERSION }
  else v

/-- The reference-inequality test `migratedVault !== parsedVault ||
migratedVault.vaultVersion !== parsedVault.vaultVersion` of `unlockVault`
(`part_001` lines 266-269): `migrateVault` allocates a new object exactly
when the version read as `vaultVersion ?? 1` equals 1. -/
def migrationChanged (v : PasswordVault) : Bool :=
  v.vaultVersion.getD 1 == 1

/-- `EncryptedVault` (`types/password.ts` lines 31-35): the persisted
envelope.  Base64 transport encoding is transparent, so `salt` and `nonce`
are byte lists and `ciphertext` is a cipher box. -/
structure EncryptedVault where
  salt : Bytes
  nonce : Bytes
  ciphertext : Ct
deriving DecidableEq

/-- The in-memory stores of the vault module (`part_001` lines 52-64) plus
the local cache of `local-storage.ts` (`part_004`): `masterKey`,
`isAuthenticated`, `encryptedVault`, the `error` field of `syncStatus`, and
the single cached envelope under the fixed localStorage key.  The transient
`syncing` flag and `lastSync` timestamp are omitted: no claim mentions
them. -/
structure VaultState where
  masterKey : Option Bytes
  isAuthenticated : Bool
  encryptedVault : Option EncryptedVault
  cache : Option EncryptedVault
  syncError : Option String
deriving DecidableEq

/-- Outcome of `downloadVaultFromGitHub` as branched on by
`loadVaultFromGitHub` (`part_001` lines 152-204): a successful result
carrying data, a failed result (including success without data, which the
code treats identically), or a thrown exception. -/
inductive DownloadResult where
  | okData (d : EncryptedVault)
  | fail
  | exn
deriving DecidableEq

/-- The environment of one vault operation: whether `getGitHubConfig()`
returns a configuration, what the remote download yields, and the fresh
24-byte nonce that `nacl.randomBytes` would draw if a re-encryption
happens during this operation. -/
structure World where
  config : Bool
  download : DownloadResult
  freshNonce : Bytes
deriving DecidableEq

/-- The `syncStatus.error` message set when falling back to the cache
(`part_001` lines 173 and 192). -/
def offlineMsg : String := "Using cached vault (offline)"

/-- `loadVaultFromGitHub` from `part_001` lines 138-204: without a GitHub
configuration, serve the cached envelope if one exists; with one, a
successful download replaces the in-memory envelope and the cache; on
download failure or exception, fall back to the cached envelope with the
offline status, and only fail hard when no cache exists. -/
def loadVaultFromGitHub (w : World) (s : VaultState) : Bool × VaultState :=
  if ¬w.config then
    match s.cache with
    | some cv => (true, { s with encryptedVault := some cv })
    | none => (false, s)
  else
    match w.download with
    | .okData d =>
        (true, { s with encryptedVault := some d, cache := some d,
                        syncError := none })
    | _ =>
        match s.cache with
        | some cv =>
            (true, { s with encryptedVault := some cv,
                            syncError := some offlineMsg })
        | none =>
            (false, { s with syncError := some ("Download failed") })

/-- The tail of the password path of `unlockVault` (`part_001` lines
247-298), after the envelope `ev` has been loaded into state `s1`: derive
the key from the envelope's salt, decrypt (exceptions are caught by the
outer try and yield `false`), parse the JSON (failure caught by the inner
try), backfill `globalNotes`, migrate, re-encrypt and persist the migrated
form when migration changed the document, then set the key and the
authenticated flag.  The fire-and-forget background push
(`syncVaultToGitHub().catch(...)`) runs after `unlockVault` has returned
and is not part of this step. -/
def unlockTryDecrypt (w : World) (password : String) (ev : EncryptedVault)
    (s1 : VaultState) : Bool × VaultState :=
  let key := deriveKey password ev.salt
  match decrypt ev.ciphertext ev.nonce key with
  | .error _ => (false, s1)
  | .ok none => (false, s1)
  | .ok (some pt) =>
    match JSONparse pt with
    | none => (false, s1)
    | some parsed0 =>
      let parsed := if parsed0.globalNotes = none
                    then { parsed0 with globalNotes := some ("") }
                    else parsed0
      let migrated := migrateVault parsed
      if migrationChanged parsed then
        match encrypt (.doc migrated) key w.freshNonce with
        | .error _ => (false, s1)
        | .ok (ct, n) =>
          let newEv : EncryptedVault := { ev with ciphertext := ct, nonce := n }
          (true, { s1 with encryptedVault := some newEv, cache := some newEv,
                           masterKey := some key, isAuthenticated := true })
      else
        (true, { s1 with masterKey := some key, isAuthenticated := true })

/-- `unlockVault` from `part_001` lines 206-299.  With an empty password and
a resident master key (the WebAuthn case), a successful load alone sets the
authenticated flag; if the load fails, the resident key is re-validated
against the resident envelope.  Otherwise the password path loads the
envelope and runs `unlockTryDecrypt`. -/
def unlockVault (w : World) (password : String) (s : VaultState) :
    Bool × VaultState :=
  if password = "" ∧ s.masterKey.isSome then
    match loadVaultFromGitHub w s with
    | (true, s1) => (true, { s1 with isAuthenticated := true })
    | (false, s1) =>
      match s1.encryptedVault, s1.masterKey with
      | some ev, some mk =>
        match decrypt ev.ciphertext ev.nonce mk with
        | .ok (some _) => (true, { s1 with isAuthenticated := true })
        | _ => (false, s1)
      | _, _ => (false, s1)
  else
    match loadVaultFromGitHub w s with
    | (false, s1) => (false, s1)
    | (true, s1) =>
      match s1.encryptedVault with
      | none => (false, s1)
      | some ev => unlockTryDecrypt w password ev s1

/-- The initial empty document built by `initializeVault`
(`vault.ts` lines 516-525): no `vaultVersion` field, empty entry list, empty
global notes, and the verification marker. -/
def emptyVault : PasswordVault :=
  { version := some ("1.0"), vaultVersion := none, vault := [],
    globalNotes := some (""), verification := some ⟨"VALID_VAULT", "1.0"⟩ }

/-- `initializeVault` from `vault.ts` lines 506-544: generate a salt
(explicit parameter), derive the key, encrypt the empty document with a
fresh nonce (explicit parameter), store the envelope, set the master key
and the authenticated flag.  The function performs no check whatsoever for
an existing envelope.  An exception from the crypto layer is logged and
rethrown (`none`). -/
def initializeVault (salt nonce : Bytes) (password : String)
    (s : VaultState) : Option VaultState :=
  let key := deriveKey password salt
  match encrypt (.doc emptyVault) key nonce with
  | .error _ => none
  | .ok (ct, n) =>
      some { s with encryptedVault := some ⟨salt, n, ct⟩,
                    masterKey := some key, isAuthenticated := true }

/-- The result of `JSON.parse` on the text handed to `importVault`: either
a well-formed serialized envelope or anything else (which throws). -/
inductive VaultSerialized where
  | env (e : EncryptedVault)
  | bad
deriving DecidableEq

/-- `importVault` from `vault.ts` lines 852-863: parse the serialized
envelope and replace the in-memory envelope wholesale; parse failure is
caught and reported as `false`.  No other field is touched. -/
def importVault (d : VaultSerialized) (s : VaultState) : Bool × VaultState :=
  match d with
  | .env e => (true, { s with encryptedVault := some e })
  | .bad => (false, s)

/-- The derived `vault` store (`part_001` lines 66-93): decrypt the resident
envelope under the resident key on demand; any failure (missing key or
envelope, authentication failure, thrown exception, unparseable JSON) yields
`null`. -/
def vaultView (s : VaultState) : Option PasswordVault :=
  match s.masterKey, s.encryptedVault with
  | some k, some ev =>
    match decrypt ev.ciphertext ev.nonce k with
    | .ok (some pt) => JSONparse pt
    | _ => none
  | _, _ => none

/-- `MAX_RETRIES` from `Login.svelte` (`part_007` line 29). -/
def MAX_RETRIES : Nat := 5

/-- The login component's counter state (`part_007` lines 17-29): the two
retry counters persisted in localStorage, the password-form flag, and a
count of wipe events (each `wipeAllStorage` call) to express how often the
destructive wipe fired. -/
structure LoginState where
  webAuthnRetryCount : Nat
  passwordRetryCount : Nat
  showPasswordForm : Bool
  wipes : Nat
deriving DecidableEq

/-- `wipeAllStorage` from `part_007` lines 262-301: log, clear all storage
and credentials, reset the in-memory vault state and both retry counters,
and reload.  Modelled on the counter state: one wipe event, counters
zeroed. -/
def wipeAllStorage (l : LoginState) : LoginState :=
  { l with wipes := l.wipes + 1, webAuthnRetryCount := 0,
           passwordRetryCount := 0 }

/-- `handleSubmit` from `part_007` lines 71-150, branching on the awaited
result of `unlockVault(password)` (the thrown-error branch increments and
checks the threshold identically to the failure branch and is merged with
it): on failure increment the password counter and wipe at the threshold
(the `setTimeout` delay before `wipeAllStorage` is modelled as immediate);
on success reset both counters. -/
def handleSubmit (unlockSucceeded : Bool) (l : LoginState) : LoginState :=
  if unlockSucceeded then
    { l with passwordRetryCount := 0, webAuthnRetryCount := 0 }
  else
    let l1 := { l with passwordRetryCount := l.passwordRetryCount + 1 }
    if l1.passwordRetryCount ≥ MAX_RETRIES then wipeAllStorage l1 else l1

/-- Outcome of `authenticateWithWebAuthn()` as branched on by
`tryWebAuthnLogin` (`part_007` line 186): success carrying an unwrapped
master key, or failure. -/
inductive WebAuthnOutcome where
  | success
  | failure
deriving DecidableEq

/-- `tryWebAuthnLogin` from `part_007` lines 152-253.  The WebAuthn counter
is incremented unconditionally at the start of every attempt (line 156),
before the focus check, the threshold check, the user-gesture check and the
credential assertion; the threshold check wipes (modelled as immediate);
a verified success with a cached vault resets both counters (and sets the
vault stores, modelled separately); success without a cache or any failure
leaves the incremented counter in place. -/
def tryWebAuthnLogin (focused gesture : Bool) (outcome : WebAuthnOutcome)
    (hasCache : Bool) (l : LoginState) : LoginState :=
  let l1 := { l with webAuthnRetryCount := l.webAuthnRetryCount + 1 }
  if ¬focused then l1
  else if l1.webAuthnRetryCount ≥ MAX_RETRIES then wipeAllStorage l1
  else if ¬gesture then l1
  else
    match outcome with
    | .success =>
        if hasCache then
          { l1 with webAuthnRetryCount := 0, passwordRetryCount := 0 }
        else
          { l1 with showPasswordForm := true }
    | .failure => l1

/-- `usePasswordInstead` from `part_007` lines 255-260: switch to the
password form and reset the WebAuthn retry counter (the password counter is
deliberately kept). -/
def usePasswordInstead (l : LoginState) : LoginState :=
  { l with showPasswordForm := true, webAuthnRetryCount := 0 }

/-- A 24-byte nonce used for concrete instances. -/
def n24 : Bytes := List.replicate 24 0

/-- A 24-byte salt used for concrete instances. -/
def salt0 : Bytes := List.replicate 24 1

/-- A derived key for concrete instances. -/
def key0 : Bytes := deriveKey ("pw") salt0

/-- A legacy entry carrying the v1 `category` field, for concrete instances. -/
def entryLegacy : PasswordEntry :=
  { id := "1", title := "t", username := "u", password := "p", url := "",
    notes := "", created := "c", modified := "m", category := some ("old") }

/-- A concrete v1 document with a populated legacy field. -/
def docV1 : PasswordVault :=
  { version := some ("1.0"), vaultVersion := some 1, vault := [entryLegacy],
    globalNotes := some (""), verification := some ⟨"VALID_VAULT", "1.0"⟩ }

/-- A concrete current-version document. -/
def docV2 : PasswordVault :=
  { docV1 with vaultVersion := some 2 }

/-- A concrete current-version document that is structurally valid JSON but
carries no `verification` block at all, hence no marker. -/
def vNoMarker : PasswordVault :=
  { version := none, vaultVersion := some 2, vault := [],
    globalNotes := some (""), verification := none }

/-- An envelope whose ciphertext decrypts under `key0` (the key derived
from the password `pw` and its salt) to the marker-less document. -/
def cvNoMarker : EncryptedVault :=
  ⟨salt0, n24, ⟨.doc vNoMarker, n24, key0⟩⟩

/-- A world with no GitHub configuration (cache-only loads). -/
def w0 : World := { config := false, download := .fail, freshNonce := n24 }

/-- A world with a GitHub configuration whose download fails. -/
def w9 : World := { config := true, download := .fail, freshNonce := n24 }

/-- A locked state holding only the cached envelope. -/
def s0 : VaultState :=
  { masterKey := none, isAuthenticated := false, encryptedVault := none,
    cache := some cvNoMarker, syncError := none }

/-- A locked state with an envelope already resident in memory. -/
def sInit : VaultState :=
  { masterKey := none, isAuthenticated := false,
    encryptedVault := some cvNoMarker, cache := none, syncError := none }

/-- The state `initializeVault` produces from `sInit` with salt `salt0`,
nonce `n24` and password `new`. -/
def sAfterInit : VaultState :=
  { sInit with
      encryptedVault :=
        some ⟨salt0, n24, ⟨.doc emptyVault, n24, deriveKey ("new") salt0⟩⟩,
      masterKey := some (deriveKey ("new") salt0),
      isAuthenticated := true }

/-- A current-version document distinct from the resident one, to be
imported. -/
def docImported : PasswordVault :=
  { docV2 with globalNotes := some ("imported") }

/-- A serialized envelope whose ciphertext is encrypted under `key0`. -/
def eImported : EncryptedVault :=
  ⟨salt0, n24, ⟨.doc docImported, n24, key0⟩⟩

/-- An unlocked state whose resident master key is `key0`. -/
def sAuth : VaultState :=
  { masterKey := some key0, isAuthenticated := true,
    encryptedVault := some ⟨salt0, n24, ⟨.doc docV2, n24, key0⟩⟩,
    cache := none, syncError := none }

/-- The fresh login-component state: both counters zero. -/
def l0 : LoginState :=
  { webAuthnRetryCount := 0, passwordRetryCount := 0,
    showPasswordForm := false, wipes := 0 }

/-- The login state after one failed WebAuthn attempt from `l0`. -/
def l1 : LoginState := tryWebAuthnLogin true true .failure false l0

theorem naclHash_length (bs : Bytes) : (naclHash bs).length = 64 := by
  simp [naclHash]

theorem deriveKey_length (password : String) (salt : Bytes) :
    (deriveKey password salt).length = KEY_BYTES := by
  simp [deriveKey, naclHash_length, KEY_BYTES]

theorem encrypt_ok (pt : Plaintext) (key nonce : Bytes)
    (hk : key.length = KEY_BYTES) (hn : nonce.length = NONCE_BYTES) :
    encrypt pt key nonce = .ok (⟨pt, nonce, key⟩, nonce) := by
  simp [encrypt, secretbox, hk, hn, Except.map]

theorem decrypt_box (pt : Plaintext) (key nonce : Bytes)
    (hk : key.length = KEY_BYTES) (hn : nonce.length = NONCE_BYTES) :
    decrypt ⟨pt, nonce, key⟩ nonce key = .ok (some pt) := by
  simp [decrypt, secretboxOpen, hk, hn]

/-- Claim C5: for every secret, salt and plaintext, decrypting the output of
`encrypt` under the key derived from the same secret and salt returns
exactly the original plaintext.  The fresh nonce drawn inside `encrypt` is
the explicit 24-byte `nonce` parameter. -/
theorem C5_roundtrip (secret : String) (salt : Bytes) (pt : Plaintext)
    (nonce : Bytes) (hn : nonce.length = NONCE_BYTES) :
    encrypt pt (deriveKey secret salt) nonce =
      .ok (⟨pt, nonce, deriveKey secret salt⟩, nonce) ∧
    decrypt ⟨pt, nonce, deriveKey secret salt⟩ nonce (deriveKey secret salt) =
      .ok (some pt) :=
  ⟨encrypt_ok pt (deriveKey secret salt) nonce (deriveKey_length secret salt) hn,
   decrypt_box pt (deriveKey secret salt) nonce (deriveKey_length secret salt) hn⟩

/-- Witness for C5 at a concrete secret, salt, plaintext and nonce. -/
theorem C5_roundtrip_witness :
    n24.length = NONCE_BYTES ∧
    (encrypt (Plaintext.raw ("m")) (deriveKey ("s") salt0) n24 =
       .ok (⟨Plaintext.raw ("m"), n24, deriveKey ("s") salt0⟩, n24) ∧
     decrypt ⟨Plaintext.raw ("m"), n24, deriveKey ("s") salt0⟩ n24
         (deriveKey ("s") salt0) = .ok (some (Plaintext.raw ("m")))) :=
  ⟨by decide, C5_roundtrip ("s") salt0 (Plaintext.raw ("m")) n24 (by decide)⟩

/-- Counterexample to claim C6 as stated: `decrypt` does not always return
plaintext-or-null.  A corrupted (one-byte) nonce makes the cipher's length
check throw `bad nonce size`, which `decrypt` does not catch — the repo's
own callers wrap `decrypt` in try/catch for exactly this reason. -/
theorem C6_never_throws_counterexample :
    decrypt ⟨Plaintext.raw ("m"), n24, key0⟩ [0] key0 =
      .error ("bad nonce size") := by
  rfl

/-- Claim C6 (amended): for a well-sized key (32 bytes) and nonce (24
bytes), `decrypt` never throws; whenever it returns a plaintext, the
ciphertext is exactly the encryption of that plaintext under that nonce and
key (never partial or garbage data); and decrypting a valid box with any
well-sized key different from the deriving key returns the `null`
sentinel.  With a wrong-sized key or nonce the underlying cipher throws
instead. -/
theorem C6_decrypt_amended (c : Ct) (nonce key : Bytes)
    (hk : key.length = KEY_BYTES) (hn : nonce.length = NONCE_BYTES) :
    (∃ r, decrypt c nonce key = .ok r) ∧
    (∀ pt, decrypt c nonce key = .ok (some pt) → c = ⟨pt, nonce, key⟩) ∧
    (∀ pt (key2 : Bytes), key2.length = KEY_BYTES → key2 ≠ key →
       decrypt (⟨pt, nonce, key⟩ : Ct) nonce key2 = .ok none) := by
  refine ⟨?_, ?_, ?_⟩
  · by_cases hm : c.nonce = nonce ∧ c.key = key
    · exact ⟨some c.msg, by simp [decrypt, secretboxOpen, hk, hn, hm]⟩
    · exact ⟨none, by simp [decrypt, secretboxOpen, hk, hn, hm]⟩
  · intro pt hpt
    by_cases hm : c.nonce = nonce ∧ c.key = key
    · simp [decrypt, secretboxOpen, hk, hn, hm] at hpt
      cases c
      simp_all
    · simp [decrypt, secretboxOpen, hk, hn, hm] at hpt
  · intro pt key2 hk2 hne
    have hne2 : key ≠ key2 := Ne.symm hne
    simp [decrypt, secretboxOpen, hk2, hn, hne2]

/-- Witness for the amended C6 at a concrete box, nonce and key pair. -/
theorem C6_decrypt_amended_witness :
    key0.length = KEY_BYTES ∧ n24.length = NONCE_BYTES ∧
    ((∃ r, decrypt ⟨Plaintext.raw ("m"), n24, key0⟩ n24 key0 = .ok r) ∧
     (∀ pt, decrypt ⟨Plaintext.raw ("m"), n24, key0⟩ n24 key0 = .ok (some pt) →
        (⟨Plaintext.raw ("m"), n24, key0⟩ : Ct) = ⟨pt, n24, key0⟩) ∧
     (∀ pt (key2 : Bytes), key2.length = KEY_BYTES → key2 ≠ key0 →
        decrypt (⟨pt, n24, key0⟩ : Ct) n24 key2 = .ok none)) :=
  ⟨by decide, by decide,
   C6_decrypt_amended ⟨Plaintext.raw ("m"), n24, key0⟩ n24 key0
     (by decide) (by decide)⟩

/-- Claim C7: migrating a v1 document (an explicit version 1, or a missing
version field, which is read as 1 and never as current) yields schema
version 2, removes the legacy `category` field from every entry, and
preserves every other field of the document and of each entry. -/
theorem C7_migration_v1 (v : PasswordVault)
    (h : v.vaultVersion = some 1 ∨ v.vaultVersion = none) :
    (migrateVault v).vaultVersion = some 2 ∧
    (migrateVault v).vault = v.vault.map stripCategory ∧
    (∀ e ∈ (migrateVault v).vault, e.category = none) ∧
    (migrateVault v).version = v.version ∧
    (migrateVault v).globalNotes = v.globalNotes ∧
    (migrateVault v).verification = v.verification ∧
    (∀ e, (stripCategory e).id = e.id ∧ (stripCategory e).title = e.title ∧
      (stripCategory e).username = e.username ∧
      (stripCategory e).password = e.password ∧
      (stripCategory e).url = e.url ∧ (stripCategory e).notes = e.notes ∧
      (stripCategory e).created = e.created ∧
      (stripCategory e).modified = e.modified) := by
  have hv : v.vaultVersion.getD 1 = 1 := by
    rcases h with h | h <;> simp [h]
  have hm : migrateVault v =
      { v with vault := v.vault.map stripCategory,
               vaultVersion := some 2 } := by
    simp [migrateVault, hv, CURRENT_VAULT_VERSION]
  refine ⟨by rw [hm], by rw [hm], ?_, by rw [hm], by rw [hm], by rw [hm], ?_⟩
  · intro e he
    rw [hm] at he
    simp only [List.mem_map] at he
    obtain ⟨a, _, rfl⟩ := he
    rfl
  · intro e
    exact ⟨rfl, rfl, rfl, rfl, rfl, rfl, rfl, rfl⟩

/-- Witness for C7 at the concrete v1 document. -/
theorem C7_migration_v1_witness :
    (docV1.vaultVersion = some 1 ∨ docV1.vaultVersion = none) ∧
    (migrateVault docV1).vaultVersion = some 2 ∧
    (migrateVault docV1).vault = docV1.vault.map stripCategory ∧
    (∀ e ∈ (migrateVault docV1).vault, e.category = none) ∧
    (migrateVault docV1).version = docV1.version ∧
    (migrateVault docV1).globalNotes = docV1.globalNotes ∧
    (migrateVault docV1).verification = docV1.verification ∧
    (∀ e, (stripCategory e).id = e.id ∧ (stripCategory e).title = e.title ∧
      (stripCategory e).username = e.username ∧
      (stripCategory e).password = e.password ∧
      (stripCategory e).url = e.url ∧ (stripCategory e).notes = e.notes ∧
      (stripCategory e).created = e.created ∧
      (stripCategory e).modified = e.modified) :=
  ⟨Or.inl rfl, C7_migration_v1 docV1 (Or.inl rfl)⟩

/-- Claim C8: migration is idempotent on every input document, and on a
document already at or above the current version it is a no-op returning
the document unchanged. -/
theorem C8_migration_idempotent :
    (∀ v, migrateVault (migrateVault v) = migrateVault v) ∧
    (∀ v : PasswordVault, v.vaultVersion.getD 1 ≥ CURRENT_VAULT_VERSION →
       migrateVault v = v) := by
  have noop : ∀ v : PasswordVault,
      v.vaultVersion.getD 1 ≥ CURRENT_VAULT_VERSION → migrateVault v = v := by
    intro v hv
    simp [migrateVault, hv]
  refine ⟨?_, noop⟩
  intro v
  by_cases h2 : v.vaultVersion.getD 1 ≥ CURRENT_VAULT_VERSION
  · rw [noop v h2, noop v h2]
  · by_cases h1 : v.vaultVersion.getD 1 = 1
    · have hm : migrateVault v =
          { v with vault := v.vault.map stripCategory,
                   vaultVersion := some 2 } := by
        simp [migrateVault, h1, h2, CURRENT_VAULT_VERSION]
      rw [hm]
      apply noop
      simp [CURRENT_VAULT_VERSION]
    · have hm : migrateVault v = v := by
        simp [migrateVault, h2, h1]
      rw [hm, hm]

/-- Witness for C8: idempotence at the concrete v1 document, and the no-op
clause at the concrete current-version document. -/
theorem C8_migration_idempotent_witness :
    migrateVault (migrateVault docV1) = migrateVault docV1 ∧
    docV2.vaultVersion.getD 1 ≥ CURRENT_VAULT_VERSION ∧
    migrateVault docV2 = docV2 :=
  ⟨C8_migration_idempotent.1 docV1, by decide,
   C8_migration_idempotent.2 docV2 (by decide)⟩

theorem encrypt_ok_inv {d : Plaintext} {k n0 : Bytes} {c : Ct} {n1 : Bytes}
    (h : encrypt d k n0 = .ok (c, n1)) :
    c = ⟨d, n0, k⟩ ∧ n1 = n0 ∧ k.length = KEY_BYTES ∧
      n0.length = NONCE_BYTES := by
  unfold encrypt secretbox at h
  by_cases hk : k.length = KEY_BYTES
  · by_cases hn : n0.length = NONCE_BYTES
    · simp [hk, hn, Except.map] at h
      exact ⟨h.1.symm, h.2.symm, hk, hn⟩
    · simp [hk, hn, Except.map] at h
  · simp [hk, Except.map] at h

theorem load_preserves (w : World) (s : VaultState) :
    (loadVaultFromGitHub w s).2.masterKey = s.masterKey ∧
    (loadVaultFromGitHub w s).2.isAuthenticated = s.isAuthenticated := by
  unfold loadVaultFromGitHub
  rcases w with ⟨config, download, fn⟩
  cases config <;> cases download <;> rcases s with ⟨mk, au, ev, ca, se⟩ <;>
    cases ca <;> simp

theorem load_offline (w : World) (s : VaultState) (cv : EncryptedVault)
    (hcfg : w.config = true) (hdl : w.download = .fail ∨ w.download = .exn)
    (hcache : s.cache = some cv) :
    loadVaultFromGitHub w s =
      (true, { s with encryptedVault := some cv,
                      syncError := some offlineMsg }) := by
  unfold loadVaultFromGitHub
  rcases hdl with hdl | hdl <;> simp [hcfg, hdl, hcache]

theorem tryDecrypt_false_frame (w : World) (password : String)
    (ev : EncryptedVault) (s1 : VaultState)
    (h : (unlockTryDecrypt w password ev s1).1 = false) :
    (unlockTryDecrypt w password ev s1).2 = s1 := by
  unfold unlockTryDecrypt at *
  rcases hdec : decrypt ev.ciphertext ev.nonce (deriveKey password ev.salt)
      with e | o
  · simp [hdec] at h ⊢
  · rcases o with _ | pt
    · simp [hdec] at h ⊢
    · rcases hp : JSONparse pt with _ | parsed0
      · simp [hdec, hp] at h ⊢
      · simp only [hdec, hp] at h ⊢
        rcases hch : migrationChanged (if parsed0.globalNotes = none
            then { parsed0 with globalNotes := some ("") } else parsed0) with _ | _
        · simp [hch] at h ⊢
        · rcases henc : encrypt (.doc (migrateVault (if parsed0.globalNotes = none
              then { parsed0 with globalNotes := some ("") } else parsed0)))
              (deriveKey password ev.salt) w.freshNonce with e2 | pr
          · simp [hch, henc] at h ⊢
          · rcases pr with ⟨ct, n⟩
            simp [hch, henc] at h

theorem tryDecrypt_success (w : World) (password : String)
    (ev : EncryptedVault) (s1 : VaultState)
    (hev : s1.encryptedVault = some ev)
    (h : (unlockTryDecrypt w password ev s1).1 = true) :
    ∃ ev2 v,
      (unlockTryDecrypt w password ev s1).2.encryptedVault = some ev2 ∧
      (unlockTryDecrypt w password ev s1).2.masterKey =
        some (deriveKey password ev.salt) ∧
      (unlockTryDecrypt w password ev s1).2.isAuthenticated = true ∧
      decrypt ev2.ciphertext ev2.nonce (deriveKey password ev.salt) =
        .ok (some (.doc v)) := by
  unfold unlockTryDecrypt at *
  rcases hdec : decrypt ev.ciphertext ev.nonce (deriveKey password ev.salt)
      with e | o
  · simp [hdec] at h
  · rcases o with _ | pt
    · simp [hdec] at h
    · rcases hp : JSONparse pt with _ | parsed0
      · simp [hdec, hp] at h
      · have hpt : pt = .doc parsed0 := by
          rcases pt with v0 | s0
          · simp [JSONparse] at hp
            rw [hp]
          · simp [JSONparse] at hp
        simp only [hdec, hp] at h ⊢
        rcases hch : migrationChanged (if parsed0.globalNotes = none
            then { parsed0 with globalNotes := some ("") } else parsed0) with _ | _
        · refine ⟨ev, parsed0, ?_⟩
          simp [hch, hdec, hpt, hev]
        · rcases henc : encrypt (.doc (migrateVault (if parsed0.globalNotes = none
              then { parsed0 with globalNotes := some ("") } else parsed0)))
              (deriveKey password ev.salt) w.freshNonce with e2 | pr
          · simp [hch, henc] at h
          · rcases pr with ⟨ct, n⟩
            obtain ⟨hct, hn1, hkl, hnl⟩ := encrypt_ok_inv henc
            refine ⟨{ ev with ciphertext := ct, nonce := n },
                    migrateVault (if parsed0.globalNotes = none
                      then { parsed0 with globalNotes := some ("") }
                      else parsed0), ?_⟩
            simp only [hch, henc]
            refine ⟨rfl, rfl, rfl, ?_⟩
            rw [hct, hn1]
            exact decrypt_box _ _ _ hkl hnl

theorem tryDecrypt_correct_secret (w : World) (password : String)
    (ev : EncryptedVault) (s1 : VaultState) (v : PasswordVault)
    (hsecret : decrypt ev.ciphertext ev.nonce (deriveKey password ev.salt) =
      .ok (some (.doc v)))
    (hn : w.freshNonce.length = NONCE_BYTES) :
    (unlockTryDecrypt w password ev s1).1 = true ∧
    (unlockTryDecrypt w password ev s1).2.masterKey =
      some (deriveKey password ev.salt) ∧
    (unlockTryDecrypt w password ev s1).2.isAuthenticated = true ∧
    (unlockTryDecrypt w password ev s1).2.syncError = s1.syncError := by
  unfold unlockTryDecrypt
  simp only [hsecret, JSONparse]
  rcases hch : migrationChanged (if v.globalNotes = none
      then { v with globalNotes := some ("") } else v) with _ | _
  · simp [hch]
  · rw [encrypt_ok _ _ _ (deriveKey_length password ev.salt) hn]
    simp [hch]

/-- Counterexample to claim C2 as stated: a failed unlock is not free of
in-memory mutation.  `unlockVault` first runs `loadVaultFromGitHub`, which
replaces the in-memory envelope with the freshly downloaded one (and caches
it) before the password is ever checked, so a wrong-password unlock against
a remote envelope different from the resident one returns `false` yet
leaves a different envelope in memory. -/
theorem C2_unlock_failure_counterexample :
    (unlockVault ⟨true, .okData cvNoMarker, n24⟩ ("wrong")
      { masterKey := none, isAuthenticated := false,
        encryptedVault := some ⟨salt0, n24, ⟨.doc docV2, n24, key0⟩⟩,
        cache := none, syncError := none }).1 = false ∧
    (unlockVault ⟨true, .okData cvNoMarker, n24⟩ ("wrong")
      { masterKey := none, isAuthenticated := false,
        encryptedVault := some ⟨salt0, n24, ⟨.doc docV2, n24, key0⟩⟩,
        cache := none, syncError := none }).2.encryptedVault =
      some cvNoMarker ∧
    some cvNoMarker ≠
      some (⟨salt0, n24, ⟨.doc docV2, n24, key0⟩⟩ : EncryptedVault) := by
  refine ⟨by rfl, by rfl, by decide⟩

/-- Claim C2 (amended): a failed unlock mutates neither the master key nor
the authenticated flag (no partial unlock); the in-memory envelope and the
local cache, however, may have been refreshed from the remote or the cache
by the load step that precedes decryption. -/
theorem C2_unlock_failure_frame (w : World) (password : String)
    (s : VaultState) (h : (unlockVault w password s).1 = false) :
    (unlockVault w password s).2.masterKey = s.masterKey ∧
    (unlockVault w password s).2.isAuthenticated = s.isAuthenticated := by
  have hL := load_preserves w s
  rcases hE : loadVaultFromGitHub w s with ⟨b, s1⟩
  have hL1 : s1.masterKey = s.masterKey := by
    rw [hE] at hL
    exact hL.1
  have hL2 : s1.isAuthenticated = s.isAuthenticated := by
    rw [hE] at hL
    exact hL.2
  unfold unlockVault at h ⊢
  rw [hE] at h ⊢
  by_cases hcond : password = "" ∧ s.masterKey.isSome
  · rw [if_pos hcond] at h ⊢
    cases b
    · rcases hev : s1.encryptedVault with _ | ev <;>
        rcases hmk : s1.masterKey with _ | mk <;>
          simp only [hev, hmk] at h ⊢
      · exact ⟨by rw [← hmk]; exact hL1, hL2⟩
      · exact ⟨by rw [← hmk]; exact hL1, hL2⟩
      · exact ⟨by rw [← hmk]; exact hL1, hL2⟩
      · rcases hdec : decrypt ev.ciphertext ev.nonce mk with e | o
        · simp only [hdec] at h ⊢
          exact ⟨hL1, hL2⟩
        · rcases o with _ | pt
          · simp only [hdec] at h ⊢
            exact ⟨hL1, hL2⟩
          · simp only [hdec] at h
            simp at h
    · simp at h
  · rw [if_neg hcond] at h ⊢
    cases b
    · exact ⟨hL1, hL2⟩
    · rcases hev : s1.encryptedVault with _ | ev <;> simp only [hev] at h ⊢
      · exact ⟨hL1, hL2⟩
      · have hf := tryDecrypt_false_frame w password ev s1 h
        rw [hf]
        exact ⟨hL1, hL2⟩

/-- Witness for the amended C2: the concrete failed unlock of the
counterexample leaves the master key and the authenticated flag untouched. -/
theorem C2_unlock_failure_frame_witness :
    (unlockVault ⟨true, .okData cvNoMarker, n24⟩ ("wrong") sInit).1 = false ∧
    ((unlockVault ⟨true, .okData cvNoMarker, n24⟩ ("wrong")
        sInit).2.masterKey = sInit.masterKey ∧
     (unlockVault ⟨true, .okData cvNoMarker, n24⟩ ("wrong")
        sInit).2.isAuthenticated = sInit.isAuthenticated) :=
  ⟨by rfl, C2_unlock_failure_frame ⟨true, .okData cvNoMarker, n24⟩ ("wrong")
    sInit (by rfl)⟩

/-- Counterexample to claim C1 as stated: the authenticated flag is set
without any check of the verification marker.  Unlocking with the correct
password an envelope whose plaintext is structurally valid JSON carrying no
`verification.marker` at all succeeds and sets `isAuthenticated`, yet the
decrypted document's verification block is absent (so no marker equals
`VALID_VAULT`). -/
theorem C1_authenticated_counterexample :
    (unlockVault w0 ("pw") s0).1 = true ∧
    (unlockVault w0 ("pw") s0).2.isAuthenticated = true ∧
    (unlockVault w0 ("pw") s0).2.encryptedVault = some cvNoMarker ∧
    (unlockVault w0 ("pw") s0).2.masterKey = some key0 ∧
    decrypt cvNoMarker.ciphertext cvNoMarker.nonce key0 =
      .ok (some (.doc vNoMarker)) ∧
    vNoMarker.verification = none := by
  refine ⟨by rfl, by rfl, by rfl, by rfl, by rfl, by rfl⟩

/-- Claim C1 (amended): on the password path (non-empty secret), whenever
`unlockVault` returns `true` and sets the authenticated flag, the resulting
in-memory envelope decrypts under the resulting in-memory master key to
structurally valid JSON — but the verification marker is never compared to
`VALID_VAULT`, and the WebAuthn paths (empty secret with resident key, and
the login component's cached-vault path) can set the flag without any
decryption check at all. -/
theorem C1_authenticated_decryptable (w : World) (password : String)
    (s : VaultState) (hpw : password ≠ (""))
    (h : (unlockVault w password s).1 = true) :
    ∃ ev2 v,
      (unlockVault w password s).2.encryptedVault = some ev2 ∧
      (unlockVault w password s).2.isAuthenticated = true ∧
      (∃ k, (unlockVault w password s).2.masterKey = some k ∧
        decrypt ev2.ciphertext ev2.nonce k = .ok (some (.doc v))) := by
  have hcond : ¬(password = ("") ∧ s.masterKey.isSome) := by
    intro hc
    exact hpw hc.1
  rcases hE : loadVaultFromGitHub w s with ⟨b, s1⟩
  unfold unlockVault at h ⊢
  rw [hE] at h ⊢
  rw [if_neg hcond] at h ⊢
  cases b
  · simp at h
  · rcases hev : s1.encryptedVault with _ | ev <;> simp only [hev] at h ⊢
    · simp at h
    · obtain ⟨ev2, v, h1, h2, h3, h4⟩ := tryDecrypt_success w password ev s1 hev h
      exact ⟨ev2, v, h1, h3, deriveKey password ev.salt, h2, h4⟩

/-- Witness for the amended C1 at the concrete password unlock of the
marker-less envelope. -/
theorem C1_authenticated_decryptable_witness :
    ("pw" ≠ ("")) ∧ (unlockVault w0 ("pw") s0).1 = true ∧
    (∃ ev2 v,
      (unlockVault w0 ("pw") s0).2.encryptedVault = some ev2 ∧
      (unlockVault w0 ("pw") s0).2.isAuthenticated = true ∧
      (∃ k, (unlockVault w0 ("pw") s0).2.masterKey = some k ∧
        decrypt ev2.ciphertext ev2.nonce k = .ok (some (.doc v)))) :=
  ⟨by decide, by rfl,
   C1_authenticated_decryptable w0 ("pw") s0 (by decide) (by rfl)⟩

/-- Claim C9: with a GitHub configuration present, a failed remote pull and
an existing local cached envelope, unlocking with the correct secret still
returns `true` (using the cached envelope: the derived key comes from the
cached envelope's salt), sets the authenticated flag, and surfaces the pull
failure only as the degraded offline status message, not as a hard
failure. -/
theorem C9_offline_fallback (w : World) (password : String) (s : VaultState)
    (cv : EncryptedVault) (v : PasswordVault)
    (hpw : password ≠ (""))
    (hcfg : w.config = true)
    (hdl : w.download = .fail ∨ w.download = .exn)
    (hcache : s.cache = some cv)
    (hsecret : decrypt cv.ciphertext cv.nonce (deriveKey password cv.salt) =
      .ok (some (.doc v)))
    (hn : w.freshNonce.length = NONCE_BYTES) :
    (unlockVault w password s).1 = true ∧
    (unlockVault w password s).2.isAuthenticated = true ∧
    (unlockVault w password s).2.masterKey =
      some (deriveKey password cv.salt) ∧
    (unlockVault w password s).2.syncError = some offlineMsg := by
  have hcond : ¬(password = ("") ∧ s.masterKey.isSome) := by
    intro hc
    exact hpw hc.1
  have hE := load_offline w s cv hcfg hdl hcache
  unfold unlockVault
  rw [hE, if_neg hcond]
  simp only
  obtain ⟨h1, h2, h3, h4⟩ := tryDecrypt_correct_secret w password cv
    { s with encryptedVault := some cv, syncError := some offlineMsg }
    v hsecret hn
  exact ⟨h1, h3, h2, h4⟩

/-- Witness for C9: the concrete offline unlock of the cached envelope. -/
theorem C9_offline_fallback_witness :
    ("pw" ≠ ("")) ∧ w9.config = true ∧
    (w9.download = .fail ∨ w9.download = .exn) ∧
    s0.cache = some cvNoMarker ∧
    decrypt cvNoMarker.ciphertext cvNoMarker.nonce
      (deriveKey ("pw") cvNoMarker.salt) = .ok (some (.doc vNoMarker)) ∧
    w9.freshNonce.length = NONCE_BYTES ∧
    ((unlockVault w9 ("pw") s0).1 = true ∧
     (unlockVault w9 ("pw") s0).2.isAuthenticated = true ∧
     (unlockVault w9 ("pw") s0).2.masterKey =
       some (deriveKey ("pw") cvNoMarker.salt) ∧
     (unlockVault w9 ("pw") s0).2.syncError = some offlineMsg) :=
  ⟨by decide, by rfl, Or.inl (by rfl), by rfl, by rfl, by decide,
   C9_offline_fallback w9 ("pw") s0 cvNoMarker vNoMarker (by decide) (by rfl)
     (Or.inl (by rfl)) (by rfl) (by rfl) (by decide)⟩

/-- Counterexample to claim C3 as stated: `initializeVault` performs no
existing-envelope check.  Called on a state whose envelope is present, it
succeeds (returns a state rather than failing) and replaces the existing
envelope with a freshly generated empty one. -/
theorem C3_initialize_counterexample :
    initializeVault salt0 n24 ("new") sInit = some sAfterInit ∧
    sAfterInit.encryptedVault ≠ sInit.encryptedVault := by
  refine ⟨by rfl, by decide⟩

/-- Claim C3 (amended): `initializeVault` never fails because of an
existing envelope; for every state (with or without a resident envelope)
it unconditionally builds a fresh empty current document with the
verification marker, encrypts it under the key derived from the fresh
salt, replaces the in-memory envelope wholesale and marks the session
authenticated. -/
theorem C3_initialize_overwrites (salt nonce : Bytes) (password : String)
    (s : VaultState) (hn : nonce.length = NONCE_BYTES) :
    initializeVault salt nonce password s =
      some { s with
        encryptedVault :=
          some ⟨salt, nonce, ⟨.doc emptyVault, nonce, deriveKey password salt⟩⟩,
        masterKey := some (deriveKey password salt),
        isAuthenticated := true } := by
  have he := encrypt_ok (.doc emptyVault) (deriveKey password salt) nonce
    (deriveKey_length password salt) hn
  simp [initializeVault, he]

/-- Witness for the amended C3 at the concrete overwriting
initialization. -/
theorem C3_initialize_overwrites_witness :
    n24.length = NONCE_BYTES ∧
    initializeVault salt0 n24 ("new") sInit =
      some { sInit with
        encryptedVault :=
          some ⟨salt0, n24, ⟨.doc emptyVault, n24, deriveKey ("new") salt0⟩⟩,
        masterKey := some (deriveKey ("new") salt0),
        isAuthenticated := true } :=
  ⟨by decide, C3_initialize_overwrites salt0 n24 ("new") sInit (by decide)⟩

/-- Counterexample to claim C10 as stated: a subsequent unlock is not
always required before the imported envelope's contents can be read.  If
the resident master key already decrypts the imported envelope, the
derived vault view exposes the imported document immediately after
`importVault`, with no unlock call in between. -/
theorem C10_import_counterexample :
    (importVault (.env eImported) sAuth).1 = true ∧
    (importVault (.env eImported) sAuth).2.masterKey = sAuth.masterKey ∧
    vaultView (importVault (.env eImported) sAuth).2 = some docImported := by
  refine ⟨by rfl, by rfl, by rfl⟩

/-- Claim C10 (amended): importing a well-formed serialized envelope
replaces the in-memory envelope wholesale and returns `true`, leaving the
in-memory master key and the authenticated flag unchanged; afterwards the
decrypted view is exactly the decryption of the imported envelope under
the unchanged resident key — so reading the imported contents requires a
key that decrypts them (an unlock with the correct secret whenever the
resident key does not already decrypt the import). -/
theorem C10_import_replaces (s : VaultState) (e : EncryptedVault) :
    importVault (.env e) s = (true, { s with encryptedVault := some e }) ∧
    (importVault (.env e) s).2.masterKey = s.masterKey ∧
    (importVault (.env e) s).2.isAuthenticated = s.isAuthenticated ∧
    vaultView (importVault (.env e) s).2 =
      (match s.masterKey with
       | some k =>
         (match decrypt e.ciphertext e.nonce k with
          | .ok (some pt) => JSONparse pt
          | _ => none)
       | none => none) := by
  refine ⟨rfl, rfl, rfl, ?_⟩
  rcases hk : s.masterKey with _ | k <;> simp [vaultView, importVault, hk]

/-- Counterexample to claim C4 as stated: the per-method counters are not
reset only by successful verified unlocks.  After one failed WebAuthn
attempt the WebAuthn counter is 1, and the mere mode switch
`usePasswordInstead` (no verified attempt of any kind) resets it to 0. -/
theorem C4_counters_counterexample :
    l1.webAuthnRetryCount = 1 ∧
    (usePasswordInstead l1).webAuthnRetryCount = 0 ∧
    (usePasswordInstead l1).wipes = l1.wipes := by
  refine ⟨by rfl, by rfl, by rfl⟩

/-- Claim C4 (amended): the password counter increments exactly on failed
(or errored) password attempts; the WebAuthn counter increments at the
start of every WebAuthn attempt — even unverified ones such as an attempt
in an unfocused document — and is additionally reset to 0 by the mere
switch to the password form; both counters reset to 0 on a successful
verified unlock via either method; and once an incremented counter
reaches `MAX_RETRIES` = 5 the destructive wipe fires exactly once for
that crossing (zeroing both counters). -/
theorem C4_counters_amended (l : LoginState) (g : Bool)
    (o : WebAuthnOutcome) (c : Bool)
    (hw : l.webAuthnRetryCount + 1 < MAX_RETRIES)
    (hp : l.passwordRetryCount + 1 < MAX_RETRIES) :
    handleSubmit true l =
      { l with passwordRetryCount := 0, webAuthnRetryCount := 0 } ∧
    tryWebAuthnLogin true true .success true l =
      { l with webAuthnRetryCount := 0, passwordRetryCount := 0 } ∧
    usePasswordInstead l =
      { l with showPasswordForm := true, webAuthnRetryCount := 0 } ∧
    handleSubmit false l =
      { l with passwordRetryCount := l.passwordRetryCount + 1 } ∧
    tryWebAuthnLogin true true .failure false l =
      { l with webAuthnRetryCount := l.webAuthnRetryCount + 1 } ∧
    tryWebAuthnLogin false g o c l =
      { l with webAuthnRetryCount := l.webAuthnRetryCount + 1 } ∧
    (handleSubmit false
        { l with passwordRetryCount := MAX_RETRIES - 1 }).wipes =
      l.wipes + 1 ∧
    (handleSubmit false
        { l with passwordRetryCount := MAX_RETRIES - 1 }).passwordRetryCount
      = 0 ∧
    (tryWebAuthnLogin true g o c
        { l with webAuthnRetryCount := MAX_RETRIES - 1 }).wipes =
      l.wipes + 1 ∧
    (tryWebAuthnLogin true g o c
        { l with webAuthnRetryCount := MAX_RETRIES - 1 }).webAuthnRetryCount
      = 0 := by
  have hw5 : ¬(l.webAuthnRetryCount + 1 ≥ MAX_RETRIES) := by omega
  have hp5 : ¬(l.passwordRetryCount + 1 ≥ MAX_RETRIES) := by omega
  refine ⟨?_, ?_, ?_, ?_, ?_, ?_, ?_, ?_, ?_, ?_⟩
  · simp [handleSubmit]
  · simp [tryWebAuthnLogin, hw5]
  · simp [usePasswordInstead]
  · simp [handleSubmit, hp5]
  · simp [tryWebAuthnLogin, hw5]
  · simp [tryWebAuthnLogin]
  · simp [handleSubmit, wipeAllStorage, MAX_RETRIES]
  · simp [handleSubmit, wipeAllStorage, MAX_RETRIES]
  · simp [tryWebAuthnLogin, wipeAllStorage, MAX_RETRIES]
  · simp [tryWebAuthnLogin, wipeAllStorage, MAX_RETRIES]

/-- Witness for the amended C4 at the fresh login state. -/
theorem C4_counters_amended_witness :
    l0.webAuthnRetryCount + 1 < MAX_RETRIES ∧
    l0.passwordRetryCount + 1 < MAX_RETRIES ∧
    (handleSubmit true l0 =
       { l0 with passwordRetryCount := 0, webAuthnRetryCount := 0 } ∧
     tryWebAuthnLogin true true .success true l0 =
       { l0 with webAuthnRetryCount := 0, passwordRetryCount := 0 } ∧
     usePasswordInstead l0 =
       { l0 with showPasswordForm := true, webAuthnRetryCount := 0 } ∧
     handleSubmit false l0 =
       { l0 with passwordRetryCount := l0.passwordRetryCount + 1 } ∧
     tryWebAuthnLogin true true .failure false l0 =
       { l0 with webAuthnRetryCount := l0.webAuthnRetryCount + 1 } ∧
     tryWebAuthnLogin false true .failure false l0 =
       { l0 with webAuthnRetryCount := l0.webAuthnRetryCount + 1 } ∧
     (handleSubmit false
         { l0 with passwordRetryCount := MAX_RETRIES - 1 }).wipes =
       l0.wipes + 1 ∧
     (handleSubmit false
         { l0 with passwordRetryCount := MAX_RETRIES - 1 }).passwordRetryCount
       = 0 ∧
     (tryWebAuthnLogin true true .failure false
         { l0 with webAuthnRetryCount := MAX_RETRIES - 1 }).wipes =
       l0.wipes + 1 ∧
     (tryWebAuthnLogin true true .failure false
         { l0 with webAuthnRetryCount := MAX_RETRIES - 1 }).webAuthnRetryCount
       = 0) :=
  ⟨by decide, by decide,
   C4_counters_amended l0 true .failure false (by decide) (by decide)⟩

end PasswordManager
